/-
Verification of the foreign-memory marshaling layer of pyclustering
(`pyclustering/core/wrapper.py`): the point-set encoder
(`create_pointer_data`), the fixed-schema result decoders
(`extract_clusters`, `extract_dynamics`), the recursive tagged package
decoder (`extract_pyclustering_package`), and the caller-facing algorithm
wrappers (`dbscan`, `cure`, `hierarchical`, `kmeans`, `rock`, `xmeans`,
and the oscillatory-network simulation wrappers).

Modelling conventions:
- C scalar values (`c_double`, `c_int`, ...) are modelled by their bit
  patterns as `Int`; the marshaling layer only ever copies them, so the
  numeric interpretation is irrelevant and copying is bit-for-bit.
- Foreign buffers are modelled as lists; a loop `for i in range(0, n)`
  reading buffer `b` is modelled as `b.take n`, which coincides with the
  loop for every in-bounds (well-formed) buffer, i.e. whenever `n` does
  not exceed the buffer length.  Well-formedness appears as an explicit
  hypothesis of the theorems.
- Python exceptions (`IndexError` from an out-of-range sequence access,
  `AssertionError` from `assert(0)`) are modelled by `Except PyError`.
- The external computation engine is a black box: each algorithm wrapper
  is modelled from the point where the engine has returned a result
  handle, taking the engine's result structure and an abstract handle id
  as parameters.  The sequence of foreign operations the wrapper performs
  on the handle (invoke, decode-read, release) is returned as an explicit
  event trace mirroring the statement order of the source.
-/
import Mathlib

namespace Pyclustering

/-- Python exceptions raised by the marshaling layer:
`IndexError` models an out-of-range sequence access, and
`UnknownTypeTag` models the `AssertionError` raised by `assert(0)` in
`extract_pyclustering_package` when the type tag matches no recognized
code. -/
inductive PyError where
  | IndexError
  | UnknownTypeTag
  deriving DecidableEq

/- The type-tag constants live in `pyclustering.core.definitions`, a
module not present under `src/`; the spec fixes seven recognized codes
{signed-int, unsigned-int, float32, float64, signed-long, unsigned-long,
nested-list}.  Their concrete numeric values are taken as 0..6 in the
order of the `if/elif` chain of `extract_pyclustering_package`
(wrapper.py:119-146); no theorem below depends on the concrete values,
only on their distinctness. -/
namespace pyclustering_type_data

/-- Modelled from the spec: the signed-int type-tag code of the missing
`pyclustering.core.definitions` module. -/
def PYCLUSTERING_TYPE_INT : Nat := 0

/-- Modelled from the spec: the unsigned-int type-tag code of the missing
`pyclustering.core.definitions` module. -/
def PYCLUSTERING_TYPE_UNSIGNED_INT : Nat := 1

/-- Modelled from the spec: the float32 type-tag code of the missing
`pyclustering.core.definitions` module. -/
def PYCLUSTERING_TYPE_FLOAT : Nat := 2

/-- Modelled from the spec: the float64 type-tag code of the missing
`pyclustering.core.definitions` module. -/
def PYCLUSTERING_TYPE_DOUBLE : Nat := 3

/-- Modelled from the spec: the signed-long type-tag code of the missing
`pyclustering.core.definitions` module. -/
def PYCLUSTERING_TYPE_LONG : Nat := 4

/-- Modelled from the spec: the unsigned-long type-tag code of the missing
`pyclustering.core.definitions` module. -/
def PYCLUSTERING_TYPE_UNSIGNED_LONG : Nat := 5

/-- Modelled from the spec: the nested-list type-tag code of the missing
`pyclustering.core.definitions` module. -/
def PYCLUSTERING_TYPE_LIST : Nat := 6

end pyclustering_type_data

open pyclustering_type_data

/-- The seven type-tag codes recognized by the `if/elif` chain of
`extract_pyclustering_package` (wrapper.py:119-146). -/
def recognized_type_tags : List Nat :=
  [PYCLUSTERING_TYPE_INT, PYCLUSTERING_TYPE_UNSIGNED_INT,
   PYCLUSTERING_TYPE_FLOAT, PYCLUSTERING_TYPE_DOUBLE,
   PYCLUSTERING_TYPE_LONG, PYCLUSTERING_TYPE_UNSIGNED_LONG,
   PYCLUSTERING_TYPE_LIST]

/-- Host-native nested value produced by the tagged package decoder:
either a scalar number or a (possibly nested) list of values, as in
spec §4.2. -/
inductive NestedValue where
  | scalar (v : Int)
  | list (vs : List NestedValue)

/-- The `pyclustering_package` foreign struct: a type tag, an element
count (`size`), and one raw `data` pointer.  The single data pointer is
read through two different casts in wrapper.py:119-143 — as a scalar
array for the six scalar tags and as an array of sub-package pointers
for the nested-list tag — so the model carries both views of the buffer
(`scalar_data` and `package_data`); only the one selected by the tag is
ever read.  A sub-package pointer may be null, hence `Option`. -/
inductive pyclustering_package where
  | mk (type_package : Nat) (size : Nat)
       (scalar_data : List Int)
       (package_data : List (Option pyclustering_package))

mutual

/-- Embedding of `extract_pyclustering_package` (wrapper.py:108-152) on a
package handle; `none` models the null pointer `ccore_package_pointer == 0`.
Each of the six scalar-tag branches appends the `size` buffer values in
foreign order; the nested-list branch recursively decodes `size`
sub-handles in foreign order; any other tag hits `assert(0)`. -/
def extract_pyclustering_package :
    Option pyclustering_package → Except PyError (List NestedValue)
  | none => .ok []
  | some (.mk type_package size scalar_data package_data) =>
    if type_package = PYCLUSTERING_TYPE_INT then
      .ok ((scalar_data.take size).map NestedValue.scalar)
    else if type_package = PYCLUSTERING_TYPE_UNSIGNED_INT then
      .ok ((scalar_data.take size).map NestedValue.scalar)
    else if type_package = PYCLUSTERING_TYPE_FLOAT then
      .ok ((scalar_data.take size).map NestedValue.scalar)
    else if type_package = PYCLUSTERING_TYPE_DOUBLE then
      .ok ((scalar_data.take size).map NestedValue.scalar)
    else if type_package = PYCLUSTERING_TYPE_LONG then
      .ok ((scalar_data.take size).map NestedValue.scalar)
    else if type_package = PYCLUSTERING_TYPE_UNSIGNED_LONG then
      .ok ((scalar_data.take size).map NestedValue.scalar)
    else if type_package = PYCLUSTERING_TYPE_LIST then
      extract_sub_packages size package_data
    else
      .error PyError.UnknownTypeTag
termination_by p => sizeOf p

/-- The loop `for index in range(0, size): result.append(
extract_pyclustering_package(pointer_data[index]))` of wrapper.py:141-143:
decode the first `size` sub-handles of the buffer in order, appending
each decoded sub-list as one element. -/
def extract_sub_packages :
    Nat → List (Option pyclustering_package) → Except PyError (List NestedValue)
  | 0, _ => .ok []
  | _ + 1, [] => .ok []
  | n + 1, sub :: rest => do
    let v ← extract_pyclustering_package sub
    let vs ← extract_sub_packages n rest
    .ok (NestedValue.list v :: vs)
termination_by _ l => sizeOf l

end

/-- The `cluster_representation` foreign struct: a declared object count
and the buffer of unsigned object indices it points to
(`pointer_objects`, read through a `POINTER(c_uint)` cast,
wrapper.py:69). -/
structure cluster_representation where
  number_objects : Nat
  pointer_objects : List Nat
  deriving DecidableEq

instance : Inhabited cluster_representation := ⟨⟨0, []⟩⟩

/-- The `clustering_result` foreign struct: a declared group count and
the buffer of `cluster_representation` structs it points to
(`pointer_clusters`, wrapper.py:61-67). -/
structure clustering_result where
  number_clusters : Nat
  pointer_clusters : List cluster_representation
  deriving DecidableEq

/-- Embedding of `extract_clusters` (wrapper.py:54-77): for each of the
`number_clusters` declared groups, in engine order, read that group's
declared `number_objects` unsigned indices from its buffer in foreign
order. -/
def extract_clusters (ccore_result : clustering_result) : List (List Nat) :=
  (ccore_result.pointer_clusters.take ccore_result.number_clusters).map
    (fun c => c.pointer_objects.take c.number_objects)

/-- The `dynamic_result` foreign struct: declared step count
(`size_dynamic`), declared network size (`size_network`), the timestamp
buffer (`times`, doubles) and the per-step value buffers (`dynamic`, an
array of `size_dynamic` pointers, each to `size_network` doubles)
(wrapper.py:87-92).  Doubles are modelled by their bit patterns as
`Int`. -/
structure dynamic_result where
  size_dynamic : Nat
  size_network : Nat
  times : List Int
  dynamic : List (List Int)
  deriving DecidableEq

/-- Embedding of `extract_dynamics` (wrapper.py:80-106): read
`size_dynamic` timestamps and, per step, `size_network` values,
returning the tuple `(times, dynamic)`. -/
def extract_dynamics (ccore_result : dynamic_result) :
    List Int × List (List Int) :=
  (ccore_result.times.take ccore_result.size_dynamic,
   (ccore_result.dynamic.take ccore_result.size_dynamic).map
     (fun row => row.take ccore_result.size_network))

/-- The `data_representation` foreign struct built by
`create_pointer_data` (wrapper.py:35-48): object count, dimension, and
the per-row buffers (each row's doubles, modelled by their bit patterns
as `Int`) addressed by `pointer_objects`. -/
structure data_representation where
  number_objects : Nat
  dimension : Nat
  pointer_objects : List (List Int)
  deriving DecidableEq

/-- The inner copy loop of `create_pointer_data` (wrapper.py:42-44):
`point[d] = sample[index][d]` for `d in range(0, dimension)`.  The loop
succeeds, copying the first `dimension` values of the row, exactly when
the row has at least `dimension` entries; otherwise the first
out-of-range access raises `IndexError`. -/
def copy_point (dimension : Nat) (row : List Int) : Except PyError (List Int) :=
  if dimension ≤ row.length then .ok (row.take dimension) else .error .IndexError

/-- The outer allocation loop of `create_pointer_data`
(wrapper.py:41-46): copy each row in order through `copy_point`,
stopping at the first failing row (the `Except` bind short-circuits
exactly like the raised `IndexError` aborts the loop). -/
def copy_points (dimension : Nat) : List (List Int) → Except PyError (List (List Int))
  | [] => .ok []
  | row :: rest => do
    let point ← copy_point dimension row
    let points ← copy_points dimension rest
    .ok (point :: points)

/-- Embedding of `create_pointer_data` (wrapper.py:28-51).
`len(sample[0])` raises `IndexError` on the empty sample; otherwise the
dimension is the first row's length and the rows are copied in order by
`copy_points`. -/
def create_pointer_data (sample : List (List Int)) :
    Except PyError data_representation :=
  match sample with
  | [] => .error .IndexError
  | first :: rest => do
    let rows ← copy_points first.length (first :: rest)
    .ok { number_objects := (first :: rest).length,
          dimension := first.length,
          pointer_objects := rows }

/-- A foreign operation performed by an algorithm wrapper on an engine
result handle: invoking the engine entry point that allocates the
handle, reading (decoding) the handle, and releasing it
(`free_clustering_result` / `free_dynamic_result`). -/
inductive FFIEvent where
  | invoke_algorithm (handle : Nat)
  | read_result (handle : Nat)
  | free_result (handle : Nat)
  deriving DecidableEq

/-- The shared shape of every algorithm wrapper's interaction with one
engine result handle, in the statement order of the source: invoke the
algorithm, decode (read) the returned handle, release it. -/
def wrapper_trace (handle : Nat) : List FFIEvent :=
  [FFIEvent.invoke_algorithm handle,
   FFIEvent.read_result handle,
   FFIEvent.free_result handle]

/-- Return value of `dbscan`: a bare cluster list when `return_noise` is
false, a (clusters, noise) tuple when it is true (wrapper.py:178-181). -/
inductive dbscan_output where
  | clusters_only (clusters : List (List Nat))
  | clusters_and_noise (clusters : List (List Nat)) (noise : List Nat)
  deriving DecidableEq

/-- Embedding of `dbscan` (wrapper.py:156-181) from the point where the
engine has returned a result handle (input encoding and the engine call
are the black-box boundary; `ccore_result` is the engine's result and
`handle` its abstract handle id).  The wrapper decodes the handle,
releases it, then reads the last group (`list_of_clusters[len-1]`,
raising `IndexError` on an empty list), removes the first group equal to
it (`list.remove`), and returns the noise group only when
`return_noise` is true.  The second component is the foreign-operation
trace in source statement order. -/
def dbscan (ccore_result : clustering_result) (handle : Nat)
    (return_noise : Bool) :
    Except PyError dbscan_output × List FFIEvent :=
  let list_of_clusters := extract_clusters ccore_result
  let value : Except PyError dbscan_output :=
    match list_of_clusters.getLast? with
    | none => .error .IndexError
    | some noise =>
      if return_noise then
        .ok (.clusters_and_noise (list_of_clusters.erase noise) noise)
      else
        .ok (.clusters_only (list_of_clusters.erase noise))
  (value, wrapper_trace handle)

/-- Embedding of `cure` (wrapper.py:183-192) from the engine boundary:
the decoded cluster list is returned unchanged, and the handle is
released after decoding. -/
def cure (ccore_result : clustering_result) (handle : Nat) :
    List (List Nat) × List FFIEvent :=
  (extract_clusters ccore_result, wrapper_trace handle)

/-- Embedding of `hierarchical` (wrapper.py:194-210) from the engine
boundary: the decoded cluster list is returned unchanged (no noise
split), and the handle is released after decoding. -/
def hierarchical (ccore_result : clustering_result) (handle : Nat) :
    List (List Nat) × List FFIEvent :=
  (extract_clusters ccore_result, wrapper_trace handle)

/-- Embedding of `kmeans` (wrapper.py:213-231) from the engine boundary. -/
def kmeans (ccore_result : clustering_result) (handle : Nat) :
    List (List Nat) × List FFIEvent :=
  (extract_clusters ccore_result, wrapper_trace handle)

/-- Embedding of `rock` (wrapper.py:234-252) from the engine boundary. -/
def rock (ccore_result : clustering_result) (handle : Nat) :
    List (List Nat) × List FFIEvent :=
  (extract_clusters ccore_result, wrapper_trace handle)

/-- Embedding of `xmeans` (wrapper.py:255-273) from the engine boundary. -/
def xmeans (ccore_result : clustering_result) (handle : Nat) :
    List (List Nat) × List FFIEvent :=
  (extract_clusters ccore_result, wrapper_trace handle)

/-- Embedding of `simulate_sync_network` (wrapper.py:290-297) from the
engine boundary: decode the dynamics handle, then release it. -/
def simulate_sync_network (ccore_result : dynamic_result) (handle : Nat) :
    (List Int × List (List Int)) × List FFIEvent :=
  (extract_dynamics ccore_result, wrapper_trace handle)

/-- Embedding of `simulate_dynamic_sync_network` (wrapper.py:300-307)
from the engine boundary. -/
def simulate_dynamic_sync_network (ccore_result : dynamic_result) (handle : Nat) :
    (List Int × List (List Int)) × List FFIEvent :=
  (extract_dynamics ccore_result, wrapper_trace handle)

/-- Embedding of `allocate_sync_ensembles_sync_network`
(wrapper.py:310-317) from the engine boundary. -/
def allocate_sync_ensembles_sync_network (ccore_result : clustering_result) (handle : Nat) :
    List (List Nat) × List FFIEvent :=
  (extract_clusters ccore_result, wrapper_trace handle)

/-- Embedding of `process_syncnet` (wrapper.py:350-357) from the engine
boundary. -/
def process_syncnet (ccore_result : dynamic_result) (handle : Nat) :
    (List Int × List (List Int)) × List FFIEvent :=
  (extract_dynamics ccore_result, wrapper_trace handle)

/-- Embedding of `get_clusters_syncnet` (wrapper.py:360-367) from the
engine boundary. -/
def get_clusters_syncnet (ccore_result : clustering_result) (handle : Nat) :
    List (List Nat) × List FFIEvent :=
  (extract_clusters ccore_result, wrapper_trace handle)

/-- Embedding of `process_hsyncnet` (wrapper.py:386-393) from the engine
boundary. -/
def process_hsyncnet (ccore_result : dynamic_result) (handle : Nat) :
    (List Int × List (List Int)) × List FFIEvent :=
  (extract_dynamics ccore_result, wrapper_trace handle)

/- ------------------------------------------------------------------ -/
/- Concrete fixtures used by witnesses and counterexamples.            -/
/- ------------------------------------------------------------------ -/

/-- The six scalar type-tag codes (the recognized codes other than
nested-list). -/
def scalar_type_tags : List Nat :=
  [pyclustering_type_data.PYCLUSTERING_TYPE_INT,
   pyclustering_type_data.PYCLUSTERING_TYPE_UNSIGNED_INT,
   pyclustering_type_data.PYCLUSTERING_TYPE_FLOAT,
   pyclustering_type_data.PYCLUSTERING_TYPE_DOUBLE,
   pyclustering_type_data.PYCLUSTERING_TYPE_LONG,
   pyclustering_type_data.PYCLUSTERING_TYPE_UNSIGNED_LONG]

/-- The nested-list example package of the spec: a nested-list package
containing `[A, B]` where `A` is the flat scalar run `[1,2,3]` and `B`
is the nested-list `[[4],[5,6]]`. -/
def nested_example_package : pyclustering_package :=
  .mk pyclustering_type_data.PYCLUSTERING_TYPE_LIST 2 []
    [some (.mk pyclustering_type_data.PYCLUSTERING_TYPE_INT 3 [1,2,3] []),
     some (.mk pyclustering_type_data.PYCLUSTERING_TYPE_LIST 2 []
       [some (.mk pyclustering_type_data.PYCLUSTERING_TYPE_INT 1 [4] []),
        some (.mk pyclustering_type_data.PYCLUSTERING_TYPE_INT 2 [5,6] [])])]

/-- The 2-group clustering result of the spec: group 0 = `[0,2,4]`,
group 1 (the implicit noise group) = `[1,3]`. -/
def example_clustering_result : clustering_result :=
  ⟨2, [⟨3, [0, 2, 4]⟩, ⟨2, [1, 3]⟩]⟩

/- ------------------------------------------------------------------ -/
/- Helper lemmas.                                                      -/
/- ------------------------------------------------------------------ -/

/-- A package carrying any of the six scalar tags decodes to the first
`size` buffer values, as scalars, in buffer order. -/
theorem extract_scalar_tag (t size : Nat) (scalar_data : List Int)
    (package_data : List (Option pyclustering_package))
    (ht : t ∈ scalar_type_tags) :
    extract_pyclustering_package (some (.mk t size scalar_data package_data)) =
      .ok ((scalar_data.take size).map NestedValue.scalar) := by
  fin_cases ht <;>
    simp [extract_pyclustering_package, scalar_type_tags,
      pyclustering_type_data.PYCLUSTERING_TYPE_INT,
      pyclustering_type_data.PYCLUSTERING_TYPE_UNSIGNED_INT,
      pyclustering_type_data.PYCLUSTERING_TYPE_FLOAT,
      pyclustering_type_data.PYCLUSTERING_TYPE_DOUBLE,
      pyclustering_type_data.PYCLUSTERING_TYPE_LONG,
      pyclustering_type_data.PYCLUSTERING_TYPE_UNSIGNED_LONG,
      pyclustering_type_data.PYCLUSTERING_TYPE_LIST]

/-- If each sub-handle of a buffer decodes successfully, decoding the
whole buffer yields the decoded sub-lists, as list values, in buffer
order. -/
theorem extract_sub_packages_of_forall2
    {subs : List (Option pyclustering_package)} {vs : List (List NestedValue)}
    (h : List.Forall₂
      (fun sub v => extract_pyclustering_package sub = .ok v) subs vs) :
    extract_sub_packages subs.length subs = .ok (vs.map NestedValue.list) := by
  induction h with
  | nil => simp [extract_sub_packages]
  | cons h1 h2 ih =>
    simp only [List.length_cons, extract_sub_packages, h1, ih,
      Bind.bind, Except.bind, List.map_cons]

/- ------------------------------------------------------------------ -/
/- Claims.                                                             -/
/- ------------------------------------------------------------------ -/

/-- C1: For every well-formed package handle the tagged package decoder
is recursive and order-preserving: a package tagged nested-list whose
sub-handles decode successfully decodes to the list of the decoded
sub-packages in foreign order; a package with a recognized scalar tag
whose declared count matches its buffer decodes to the flat list of its
count values in foreign order; and in particular the nested-list package
`[A, B]` with `A = [1,2,3]` (flat scalar run) and `B = [[4],[5,6]]`
(nested-list) decodes to exactly `[[1,2,3], [[4],[5,6]]]`. -/
theorem extract_package_recursive_order_preserving :
    (∀ (t size : Nat) (scalar_data : List Int)
       (package_data : List (Option pyclustering_package)),
       t ∈ scalar_type_tags → size = scalar_data.length →
       extract_pyclustering_package
           (some (.mk t size scalar_data package_data)) =
         .ok (scalar_data.map NestedValue.scalar)) ∧
    (∀ (size : Nat) (scalar_data : List Int)
       (package_data : List (Option pyclustering_package))
       (vs : List (List NestedValue)),
       size = package_data.length →
       List.Forall₂
         (fun sub v => extract_pyclustering_package sub = .ok v)
         package_data vs →
       extract_pyclustering_package
           (some (.mk pyclustering_type_data.PYCLUSTERING_TYPE_LIST
             size scalar_data package_data)) =
         .ok (vs.map NestedValue.list)) ∧
    extract_pyclustering_package (some nested_example_package) =
      .ok [.list [.scalar 1, .scalar 2, .scalar 3],
           .list [.list [.scalar 4], .list [.scalar 5, .scalar 6]]] := by
  refine ⟨?_, ?_, ?_⟩
  · intro t size scalar_data package_data ht hsize
    subst hsize
    rw [extract_scalar_tag t _ _ _ ht, List.take_length]
  · intro size scalar_data package_data vs hsize h
    subst hsize
    have := extract_sub_packages_of_forall2 h
    simp only [extract_pyclustering_package,
      pyclustering_type_data.PYCLUSTERING_TYPE_INT,
      pyclustering_type_data.PYCLUSTERING_TYPE_UNSIGNED_INT,
      pyclustering_type_data.PYCLUSTERING_TYPE_FLOAT,
      pyclustering_type_data.PYCLUSTERING_TYPE_DOUBLE,
      pyclustering_type_data.PYCLUSTERING_TYPE_LONG,
      pyclustering_type_data.PYCLUSTERING_TYPE_UNSIGNED_LONG,
      pyclustering_type_data.PYCLUSTERING_TYPE_LIST]
    simpa using this
  · simp [nested_example_package, extract_pyclustering_package,
      extract_sub_packages, Bind.bind, Except.bind,
      pyclustering_type_data.PYCLUSTERING_TYPE_INT,
      pyclustering_type_data.PYCLUSTERING_TYPE_UNSIGNED_INT,
      pyclustering_type_data.PYCLUSTERING_TYPE_FLOAT,
      pyclustering_type_data.PYCLUSTERING_TYPE_DOUBLE,
      pyclustering_type_data.PYCLUSTERING_TYPE_LONG,
      pyclustering_type_data.PYCLUSTERING_TYPE_UNSIGNED_LONG,
      pyclustering_type_data.PYCLUSTERING_TYPE_LIST]

/-- Witness for C1: the general statements applied to the concrete flat
scalar package `[7, 8]` (unsigned-int tag) and to a concrete nested-list
package one of whose sub-handles is null. -/
theorem extract_package_recursive_order_preserving_witness :
    extract_pyclustering_package
        (some (.mk pyclustering_type_data.PYCLUSTERING_TYPE_UNSIGNED_INT
          2 [7, 8] [])) = .ok [.scalar 7, .scalar 8] ∧
    extract_pyclustering_package
        (some (.mk pyclustering_type_data.PYCLUSTERING_TYPE_LIST 2 []
          [none,
           some (.mk pyclustering_type_data.PYCLUSTERING_TYPE_INT
             1 [9] [])])) =
      .ok [.list [], .list [.scalar 9]] := by
  constructor
  · exact extract_package_recursive_order_preserving.1
      pyclustering_type_data.PYCLUSTERING_TYPE_UNSIGNED_INT 2 [7, 8] []
      (by simp [scalar_type_tags]) rfl
  · refine extract_package_recursive_order_preserving.2.1 2 []
      [none, some (.mk pyclustering_type_data.PYCLUSTERING_TYPE_INT 1 [9] [])]
      [[], [.scalar 9]] rfl ?_
    refine List.Forall₂.cons ?_ (List.Forall₂.cons ?_ List.Forall₂.nil)
    · simp [extract_pyclustering_package]
    · simp [extract_pyclustering_package,
        pyclustering_type_data.PYCLUSTERING_TYPE_INT]

/-- C4: decoding a package whose type tag matches none of the seven
recognized codes fails with `UnknownTypeTag` (the `assert(0)` branch),
aborting decoding of that handle; it never returns a value. -/
theorem extract_unknown_tag_fails (t size : Nat) (scalar_data : List Int)
    (package_data : List (Option pyclustering_package))
    (ht : t ∉ recognized_type_tags) :
    extract_pyclustering_package (some (.mk t size scalar_data package_data)) =
        .error PyError.UnknownTypeTag ∧
    ∀ vs : List NestedValue,
      extract_pyclustering_package
        (some (.mk t size scalar_data package_data)) ≠ .ok vs := by
  simp only [recognized_type_tags, List.mem_cons, List.not_mem_nil, or_false,
    not_or] at ht
  obtain ⟨h0, h1, h2, h3, h4, h5, h6⟩ := ht
  have hmain : extract_pyclustering_package
      (some (.mk t size scalar_data package_data)) =
      .error PyError.UnknownTypeTag := by
    simp [extract_pyclustering_package, h0, h1, h2, h3, h4, h5, h6]
  exact ⟨hmain, fun vs hvs => by rw [hmain] at hvs; exact Except.noConfusion hvs⟩

/-- Witness for C4: the unrecognized tag 99 on a non-empty scalar
buffer fails with `UnknownTypeTag` and is not decoded as any data. -/
theorem extract_unknown_tag_fails_witness :
    extract_pyclustering_package (some (.mk 99 3 [1, 2, 3] [])) =
        .error PyError.UnknownTypeTag ∧
    extract_pyclustering_package (some (.mk 99 3 [1, 2, 3] [])) ≠
        .ok [.scalar 1, .scalar 2, .scalar 3] := by
  have h := extract_unknown_tag_fails 99 3 [1, 2, 3] [] (by decide)
  exact ⟨h.1, h.2 _⟩

/-- C6: decoding the null (zero) package handle yields the empty list,
never an error, without reading any header field. -/
theorem extract_null_handle_empty :
    extract_pyclustering_package none = .ok ([] : List NestedValue) := by
  simp [extract_pyclustering_package]

/-- C8: for a clustering result declaring `g` groups (with in-bounds
buffers), the cluster decoder returns exactly `g` groups in engine
order; group `i` is the first `number_objects` indices of the `i`-th
declared group's buffer, in within-group foreign order, and contains
exactly its declared object count of indices. -/
theorem extract_clusters_exact_groups (r : clustering_result)
    (h1 : r.number_clusters ≤ r.pointer_clusters.length)
    (h2 : ∀ c ∈ r.pointer_clusters,
      c.number_objects ≤ c.pointer_objects.length) :
    (extract_clusters r).length = r.number_clusters ∧
    ∀ i, i < r.number_clusters →
      (extract_clusters r)[i]? =
        some ((r.pointer_clusters.getD i default).pointer_objects.take
          (r.pointer_clusters.getD i default).number_objects) ∧
      ((extract_clusters r).getD i []).length =
        (r.pointer_clusters.getD i default).number_objects := by
  have hlen : (extract_clusters r).length = r.number_clusters := by
    rw [extract_clusters, List.length_map]
    exact List.length_take_of_le h1
  refine ⟨hlen, fun i hi => ?_⟩
  have hi2 : i < r.pointer_clusters.length := lt_of_lt_of_le hi h1
  have hgetD : r.pointer_clusters.getD i default = r.pointer_clusters[i] := by
    rw [List.getD_eq_getElem?_getD, List.getElem?_eq_getElem hi2]
    rfl
  have hcell : (extract_clusters r)[i]? =
      some ((r.pointer_clusters[i]).pointer_objects.take
        (r.pointer_clusters[i]).number_objects) := by
    rw [extract_clusters, List.getElem?_map, List.getElem?_take, if_pos hi,
      List.getElem?_eq_getElem hi2]
    rfl
  rw [hgetD]
  refine ⟨hcell, ?_⟩
  rw [List.getD_eq_getElem?_getD, hcell]
  exact List.length_take_of_le (h2 _ (List.getElem_mem hi2))

/-- Witness for C8: the 2-group example result decodes to exactly two
groups, with group 1 equal to `[1, 3]` of length 2. -/
theorem extract_clusters_exact_groups_witness :
    (extract_clusters example_clustering_result).length = 2 ∧
    (extract_clusters example_clustering_result)[1]? = some [1, 3] ∧
    ((extract_clusters example_clustering_result).getD 1 []).length = 2 := by
  have h := extract_clusters_exact_groups example_clustering_result
    (by decide) (by decide)
  have h1 := (h.2 1 (by decide)).1
  have h2 := (h.2 1 (by decide)).2
  refine ⟨h.1, ?_, ?_⟩
  · simpa [example_clustering_result] using h1
  · simpa [example_clustering_result] using h2

/-- C5 counterexample: the claim says a dynamics result with declared
step count zero fails with `MalformedDynamics` rather than returning a
value, but the decoder has no such error path: it returns the pair of
empty parallel lists. -/
theorem extract_dynamics_zero_steps_returns_value :
    extract_dynamics ⟨0, 2, [], []⟩ = (([] : List Int), ([] : List (List Int))) :=
  rfl

/-- C5 (amended): for every dynamics result with declared step count `n`
and network size `m` (and in-bounds buffers), the decoder returns two
parallel sequences of length `n`, every inner value list of length
exactly `m`, preserving foreign order; a declared 0-step result decodes
to the pair of empty lists, not an error. -/
theorem extract_dynamics_parallel_lengths (r : dynamic_result)
    (h1 : r.size_dynamic ≤ r.times.length)
    (h2 : r.size_dynamic ≤ r.dynamic.length)
    (h3 : ∀ row ∈ r.dynamic, r.size_network ≤ row.length) :
    (extract_dynamics r).1.length = r.size_dynamic ∧
    (extract_dynamics r).2.length = r.size_dynamic ∧
    (∀ row ∈ (extract_dynamics r).2, row.length = r.size_network) ∧
    (∀ i, i < r.size_dynamic →
      (extract_dynamics r).1[i]? = r.times[i]? ∧
      (extract_dynamics r).2[i]? =
        some ((r.dynamic.getD i []).take r.size_network)) ∧
    (r.size_dynamic = 0 → extract_dynamics r = ([], [])) := by
  refine ⟨?_, ?_, ?_, ?_, ?_⟩
  · rw [extract_dynamics]
    exact List.length_take_of_le h1
  · rw [extract_dynamics]
    simp only [List.length_map]
    exact List.length_take_of_le h2
  · intro row hrow
    simp only [extract_dynamics, List.mem_map] at hrow
    obtain ⟨row0, hrow0, rfl⟩ := hrow
    exact List.length_take_of_le (h3 row0 (List.mem_of_mem_take hrow0))
  · intro i hi
    have hi2 : i < r.dynamic.length := lt_of_lt_of_le hi h2
    constructor
    · rw [extract_dynamics, List.getElem?_take, if_pos hi]
    · rw [extract_dynamics, List.getElem?_map, List.getElem?_take, if_pos hi,
        List.getElem?_eq_getElem hi2, List.getD_eq_getElem?_getD,
        List.getElem?_eq_getElem hi2]
      rfl
  · intro h0
    simp [extract_dynamics, h0]

/-- Witness for C5: the 3-step, 2-node example (timestamps modelled by
the double bit patterns `[100, 101, 102]`, per-step values
`[[5,5],[6,4],[7,3]]`) decodes to two parallel sequences of length 3
with every inner list of length 2, in foreign order. -/
theorem extract_dynamics_parallel_lengths_witness :
    (extract_dynamics ⟨3, 2, [100, 101, 102], [[5,5],[6,4],[7,3]]⟩).1.length = 3 ∧
    (extract_dynamics ⟨3, 2, [100, 101, 102], [[5,5],[6,4],[7,3]]⟩).2.length = 3 ∧
    (extract_dynamics ⟨3, 2, [100, 101, 102], [[5,5],[6,4],[7,3]]⟩).1[2]? = some 102 ∧
    (extract_dynamics ⟨3, 2, [100, 101, 102], [[5,5],[6,4],[7,3]]⟩).2[2]? = some [7, 3] := by
  have h := extract_dynamics_parallel_lengths ⟨3, 2, [100, 101, 102], [[5,5],[6,4],[7,3]]⟩
    (by decide) (by decide) (by decide)
  have h4 := h.2.2.2.1 2 (by decide)
  exact ⟨h.1, h.2.1, by simpa using h4.1, by simpa using h4.2⟩

/-- When every row has at least `dimension` entries, the copy loop
succeeds and each row buffer holds the row's first `dimension` values in
order. -/
theorem copy_points_ok (dimension : Nat) (l : List (List Int))
    (h : ∀ row ∈ l, dimension ≤ row.length) :
    copy_points dimension l = .ok (l.map (fun row => row.take dimension)) := by
  induction l with
  | nil => simp [copy_points]
  | cons a l ih =>
    have ha : dimension ≤ a.length := h a (List.mem_cons_self a l)
    have hl := ih (fun row hrow => h row (List.mem_cons_of_mem a hrow))
    simp [copy_points, copy_point, if_pos ha, hl, Bind.bind, Except.bind]

/-- When some row has fewer than `dimension` entries, the copy loop
raises `IndexError` at the first such row. -/
theorem copy_points_err (dimension : Nat) (l : List (List Int))
    (h : ∃ row ∈ l, row.length < dimension) :
    copy_points dimension l = .error PyError.IndexError := by
  induction l with
  | nil => simp at h
  | cons a l ih =>
    by_cases ha : dimension ≤ a.length
    · obtain ⟨row, hrow, hlen⟩ := h
      rcases List.mem_cons.mp hrow with rfl | hrow2
      · omega
      · simp [copy_points, copy_point, if_pos ha, ih ⟨row, hrow2, hlen⟩,
          Bind.bind, Except.bind]
    · simp [copy_points, copy_point, if_neg ha, Bind.bind, Except.bind]

/-- C3 counterexample: the claim says every input whose rows have
differing lengths fails with `InvalidShape`, but an input whose second
row is longer than the first encodes without any error — the long row is
silently truncated. -/
theorem create_pointer_data_longer_row_no_error :
    create_pointer_data [[1, 2], [3, 4, 5]] =
      .ok ⟨2, 2, [[1, 2], [3, 4]]⟩ := rfl

/-- C3 (amended): the point-set encoder performs no input validation.
The empty input fails with an `IndexError` when the first row's length
is read; an input all of whose rows have at least the first row's length
encodes successfully, rows truncated to the first row's length (so a row
longer than the first never causes a failure); an input with a row
shorter than the first fails with an `IndexError` raised during
copying. -/
theorem create_pointer_data_no_validation :
    create_pointer_data ([] : List (List Int)) = .error PyError.IndexError ∧
    (∀ (first : List Int) (rest : List (List Int)),
       (∀ row ∈ rest, first.length ≤ row.length) →
       create_pointer_data (first :: rest) =
         .ok ⟨(first :: rest).length, first.length,
              (first :: rest).map (fun row => row.take first.length)⟩) ∧
    (∀ (first : List Int) (rest : List (List Int)),
       (∃ row ∈ rest, row.length < first.length) →
       create_pointer_data (first :: rest) = .error PyError.IndexError) := by
  refine ⟨rfl, ?_, ?_⟩
  · intro first rest h
    have hall : ∀ row ∈ first :: rest, first.length ≤ row.length := by
      intro row hrow
      rcases List.mem_cons.mp hrow with rfl | hrow2
      · exact Nat.le_refl _
      · exact h row hrow2
    simp [create_pointer_data, copy_points_ok first.length _ hall,
      Bind.bind, Except.bind]
  · intro first rest h
    obtain ⟨row, hrow, hlen⟩ := h
    have : ∃ row ∈ first :: rest, row.length < first.length :=
      ⟨row, List.mem_cons_of_mem first hrow, hlen⟩
    simp [create_pointer_data, copy_points_err first.length _ this,
      Bind.bind, Except.bind]

/-- Witness for C3 (amended): a longer second row encodes successfully
(truncated), and a shorter second row raises `IndexError`. -/
theorem create_pointer_data_no_validation_witness :
    create_pointer_data [[1, 2], [9, 9, 9, 9]] =
      .ok ⟨2, 2, [[1, 2], [9, 9]]⟩ ∧
    create_pointer_data [[1, 2, 3], [4]] = .error PyError.IndexError := by
  constructor
  · have h := create_pointer_data_no_validation.2.1 [1, 2] [[9, 9, 9, 9]]
      (by simp)
    simpa using h
  · exact create_pointer_data_no_validation.2.2 [1, 2, 3] [[4]]
      ⟨[4], by simp, by simp⟩

/-- C7: encoding a non-empty point set with equal-length rows succeeds,
and the encoded row buffers hold exactly the original values (modelled
bit-for-bit as the doubles' bit patterns), in the original row and
column order. -/
theorem create_pointer_data_round_trip (first : List Int)
    (rest : List (List Int))
    (heq : ∀ row ∈ first :: rest, row.length = first.length) :
    create_pointer_data (first :: rest) =
      .ok ⟨(first :: rest).length, first.length, first :: rest⟩ := by
  have hall : ∀ row ∈ first :: rest, first.length ≤ row.length :=
    fun row hrow => Nat.le_of_eq (heq row hrow).symm
  have hok := copy_points_ok first.length (first :: rest) hall
  have htake : ∀ row ∈ first :: rest, row.take first.length = id row := by
    intro row hrow
    rw [← heq row hrow, List.take_length]
    rfl
  have hmap : (first :: rest).map (fun row => row.take first.length) =
      first :: rest :=
    (List.map_congr_left htake).trans (List.map_id _)
  rw [hmap] at hok
  simp [create_pointer_data, hok, Bind.bind, Except.bind]

/-- Witness for C7: the 2×2 point set `[[1,2],[3,4]]` round-trips
exactly. -/
theorem create_pointer_data_round_trip_witness :
    create_pointer_data [[1, 2], [3, 4]] =
      .ok ⟨2, 2, [[1, 2], [3, 4]]⟩ := by
  have h := create_pointer_data_round_trip [1, 2] [[3, 4]] (by simp)
  simpa using h

/-- C10 counterexample: for the non-empty input `[[1,2],[3]]` whose
first row is non-empty, no header is produced at all — the shorter
second row makes encoding fail with an `IndexError` — contradicting the
claim as stated over every such input. -/
theorem create_pointer_data_short_row_no_header :
    create_pointer_data [[1, 2], [3]] = .error PyError.IndexError := rfl

/-- C10 (amended): for every non-empty input whose first row is
non-empty and all of whose rows have at least the first row's length,
the produced header has `number_objects = len(sample)` and
`dimension = len(sample[0])`, and each row's buffer holds only that
row's first `len(sample[0])` values — rows longer than the first are
silently truncated. -/
theorem create_pointer_data_dimension_from_first_row (first : List Int)
    (rest : List (List Int)) (hfirst : 0 < first.length)
    (h : ∀ row ∈ rest, first.length ≤ row.length) :
    ∃ d : data_representation,
      create_pointer_data (first :: rest) = .ok d ∧
      d.number_objects = (first :: rest).length ∧
      d.dimension = first.length ∧
      d.pointer_objects =
        (first :: rest).map (fun row => row.take first.length) := by
  have hall : ∀ row ∈ first :: rest, first.length ≤ row.length := by
    intro row hrow
    rcases List.mem_cons.mp hrow with rfl | hrow2
    · exact Nat.le_refl _
    · exact h row hrow2
  refine ⟨⟨(first :: rest).length, first.length,
    (first :: rest).map (fun row => row.take first.length)⟩, ?_, rfl, rfl, rfl⟩
  simp [create_pointer_data, copy_points_ok first.length _ hall,
    Bind.bind, Except.bind]

/-- Witness for C10 (amended): `[[1,2],[6,7,8]]` encodes with header
count 2 and dimension 2, the longer row truncated to `[6,7]`. -/
theorem create_pointer_data_dimension_from_first_row_witness :
    create_pointer_data [[1, 2], [6, 7, 8]] =
      .ok ⟨2, 2, [[1, 2], [6, 7]]⟩ := by
  obtain ⟨d, hd, h1, h2, h3⟩ :=
    create_pointer_data_dimension_from_first_row [1, 2] [[6, 7, 8]]
      (by decide) (by simp)
  rw [hd]
  cases d
  simp only at h1 h2 h3
  simp [h1, h2, h3]

/-- Removing the first occurrence of the last element (Python
`list.remove`) coincides with dropping the last element exactly when no
earlier element equals the last one. -/
theorem erase_getLast_of_not_mem_dropLast {l : List (List Nat)}
    {noise : List Nat} (hlast : l.getLast? = some noise)
    (hnd : noise ∉ l.dropLast) :
    l.erase noise = l.dropLast := by
  have hne : l ≠ [] := by rintro rfl; simp at hlast
  have happ : l.dropLast ++ [l.getLast hne] = l :=
    List.dropLast_append_getLast hne
  have hg : l.getLast hne = noise :=
    (List.getLast_eq_iff_getLast?_eq_some hne).2 hlast
  rw [hg] at happ
  calc l.erase noise = (l.dropLast ++ [noise]).erase noise := by rw [happ]
    _ = l.dropLast ++ ([noise].erase noise) := List.erase_append_right _ hnd
    _ = l.dropLast := by simp

/-- C2 counterexample: `hierarchical` performs no noise split at all —
on the decoded 2-group result (group 0 = `[0,2,4]`, group 1 = `[1,3]`)
it returns both groups, not `[[0,2,4]]` as the claim requires of every
wrapper with noise reporting unavailable. -/
theorem hierarchical_keeps_all_groups :
    (hierarchical example_clustering_result 0).1 = [[0, 2, 4], [1, 3]] ∧
    ([[0, 2, 4], [1, 3]] : List (List Nat)) ≠ [[0, 2, 4]] := by
  exact ⟨rfl, by decide⟩

/-- C2 (amended): only the `dbscan` wrapper splits a group out of the
decoded cluster list: the noise group is the last decoded group, the
returned clusters are the decoded list with the first group equal to the
last removed (which is exactly all-but-the-last whenever no earlier
group equals the last group), and the noise group is surfaced only when
`return_noise` is true, otherwise discarded.  The other wrappers
(`hierarchical`, `cure`, `kmeans`, `rock`, `xmeans`) return the decoded
cluster list unchanged.  On the 2-group example (group 0 = `[0,2,4]`,
group 1 = `[1,3]`), `dbscan` returns `[[0,2,4]]` without noise reporting
and `([[0,2,4]], [1,3])` with it. -/
theorem dbscan_noise_split :
    (∀ (r : clustering_result) (handle : Nat) (noise : List Nat),
       (extract_clusters r).getLast? = some noise →
       (dbscan r handle true).1 =
         .ok (.clusters_and_noise ((extract_clusters r).erase noise) noise) ∧
       (dbscan r handle false).1 =
         .ok (.clusters_only ((extract_clusters r).erase noise))) ∧
    (∀ (r : clustering_result) (handle : Nat) (noise : List Nat),
       (extract_clusters r).getLast? = some noise →
       noise ∉ (extract_clusters r).dropLast →
       (dbscan r handle false).1 =
         .ok (.clusters_only ((extract_clusters r).dropLast))) ∧
    (∀ (r : clustering_result) (handle : Nat),
       (hierarchical r handle).1 = extract_clusters r ∧
       (cure r handle).1 = extract_clusters r ∧
       (kmeans r handle).1 = extract_clusters r ∧
       (rock r handle).1 = extract_clusters r ∧
       (xmeans r handle).1 = extract_clusters r) ∧
    (dbscan example_clustering_result 0 false).1 =
      .ok (.clusters_only [[0, 2, 4]]) ∧
    (dbscan example_clustering_result 0 true).1 =
      .ok (.clusters_and_noise [[0, 2, 4]] [1, 3]) := by
  have hsplit : ∀ (r : clustering_result) (handle : Nat) (noise : List Nat),
      (extract_clusters r).getLast? = some noise →
      (dbscan r handle true).1 =
        .ok (.clusters_and_noise ((extract_clusters r).erase noise) noise) ∧
      (dbscan r handle false).1 =
        .ok (.clusters_only ((extract_clusters r).erase noise)) := by
    intro r handle noise hlast
    constructor <;> simp [dbscan, hlast]
  refine ⟨hsplit, ?_, ?_, ?_, ?_⟩
  · intro r handle noise hlast hnd
    rw [(hsplit r handle noise hlast).2,
      erase_getLast_of_not_mem_dropLast hlast hnd]
  · intro r handle
    exact ⟨rfl, rfl, rfl, rfl, rfl⟩
  · have h := (hsplit example_clustering_result 0 [1, 3] (by decide)).2
    simpa [example_clustering_result, extract_clusters] using h
  · have h := (hsplit example_clustering_result 0 [1, 3] (by decide)).1
    simpa [example_clustering_result, extract_clusters] using h

/-- Witness for C2 (amended): the split applied to the concrete 2-group
example through the general statements, with noise reporting on and
off. -/
theorem dbscan_noise_split_witness :
    (dbscan example_clustering_result 7 true).1 =
      .ok (.clusters_and_noise [[0, 2, 4]] [1, 3]) ∧
    (dbscan example_clustering_result 7 false).1 =
      .ok (.clusters_only [[0, 2, 4]]) := by
  have h1 := dbscan_noise_split.1 example_clustering_result 7 [1, 3] (by decide)
  have h2 := dbscan_noise_split.2.1 example_clustering_result 7 [1, 3]
    (by decide) (by decide)
  exact ⟨by simpa [example_clustering_result, extract_clusters] using h1.1,
         by simpa [example_clustering_result, extract_clusters] using h2⟩

/-- Predicate on a wrapper's foreign-operation trace: the release of the
result handle occurs exactly once, and strictly after the decode (read)
of that handle. -/
def released_once_after_read (tr : List FFIEvent) (handle : Nat) : Prop :=
  tr.count (FFIEvent.free_result handle) = 1 ∧
  ∃ i j : Nat, i < j ∧ tr[i]? = some (FFIEvent.read_result handle) ∧
    tr[j]? = some (FFIEvent.free_result handle)

/-- The shared invoke-decode-release trace satisfies the release
discipline. -/
theorem wrapper_trace_released_once (handle : Nat) :
    released_once_after_read (wrapper_trace handle) handle := by
  refine ⟨?_, 1, 2, by omega, rfl, rfl⟩
  simp [wrapper_trace, List.count_cons, List.count_nil]

/-- C9: decoding is a pure read (each decoder is a plain function of the
decoded structure, with no access to the release operation), and every
algorithm wrapper releases the engine's result handle exactly once,
strictly after decoding of that handle: its foreign-operation trace
contains exactly one release event, positioned after the decode-read
event. -/
theorem wrappers_release_once_after_decode :
    ∀ (cr : clustering_result) (dr : dynamic_result) (handle : Nat)
      (return_noise : Bool),
      released_once_after_read ((dbscan cr handle return_noise).2) handle ∧
      released_once_after_read ((cure cr handle).2) handle ∧
      released_once_after_read ((hierarchical cr handle).2) handle ∧
      released_once_after_read ((kmeans cr handle).2) handle ∧
      released_once_after_read ((rock cr handle).2) handle ∧
      released_once_after_read ((xmeans cr handle).2) handle ∧
      released_once_after_read
        ((allocate_sync_ensembles_sync_network cr handle).2) handle ∧
      released_once_after_read ((get_clusters_syncnet cr handle).2) handle ∧
      released_once_after_read ((simulate_sync_network dr handle).2) handle ∧
      released_once_after_read
        ((simulate_dynamic_sync_network dr handle).2) handle ∧
      released_once_after_read ((process_syncnet dr handle).2) handle ∧
      released_once_after_read ((process_hsyncnet dr handle).2) handle := by
  intro cr dr handle return_noise
  have h := wrapper_trace_released_once handle
  exact ⟨h, h, h, h, h, h, h, h, h, h, h, h⟩

end Pyclustering
